import Mathlib

/-!
Verification development for the obs-package-update library.

The Lean definitions below are shallow embeddings of the Python sources:
`src/obs_package_update/util.py` (command execution and retry),
`src/obs_package_update/submitrequest.py` (parsing of osc request-list
output) and `src/obs_package_update/update.py` (the update workflow).
External processes are modelled by an environment that maps each issued
command string to the result of the spawned process; Python exceptions are
modelled by the `PyExc` error type together with `Except`.
-/

/-! ## Python string primitives used by the sources

These are character-level, structurally recursive models of the Python
string operations the sources use, so that every definition evaluates
inside the kernel. -/

/-- Split a character list at every character satisfying `p`, keeping
empty pieces (the behaviour of splitting on a single-character class). -/
def charSplit (p : Char → Bool) : List Char → List Char → List (List Char)
  | [], acc => [acc.reverse]
  | c :: rest, acc =>
    if p c then acc.reverse :: charSplit p rest []
    else charSplit p rest (c :: acc)

/-- Python `str.split()` with no separator: split on runs of whitespace,
discarding empty pieces. -/
def pySplitWs (s : String) : List String :=
  ((charSplit (fun c => c.isWhitespace) s.data []).map String.mk).filter
    (fun p => p ≠ "")

/-- The worker of `pySplitStr`: scan for non-overlapping occurrences of
the separator from the left. The fuel is consumed one character per step
and each step advances by at least one character, so `cs.length` fuel is
always enough. -/
def splitOnListGo (sep : List Char) : Nat → List Char → List Char → List (List Char)
  | 0, cs, acc => [acc.reverse ++ cs]
  | _ + 1, [], acc => [acc.reverse]
  | fuel + 1, c :: rest, acc =>
    if sep.isPrefixOf (c :: rest) then
      acc.reverse :: splitOnListGo sep fuel (List.drop (sep.length - 1) rest) []
    else splitOnListGo sep fuel rest (c :: acc)

/-- Python `str.split(sep)` for a non-empty separator: split at
non-overlapping occurrences of `sep`, keeping empty pieces. -/
def pySplitStr (s sep : String) : List String :=
  (splitOnListGo sep.data s.data.length s.data []).map String.mk

/-- Python `str.strip()`: drop whitespace from both ends. -/
def pyStrip (s : String) : String :=
  String.mk (((s.data.dropWhile (fun c => c.isWhitespace)).reverse.dropWhile
    (fun c => c.isWhitespace)).reverse)

/-- Python `str.splitlines()` for strings whose only line separator is
a newline character: split on newline, with no trailing empty line for a
trailing newline and no lines at all for the empty string. -/
def pySplitlines (s : String) : List String :=
  if s = "" then []
  else
    let parts := pySplitStr s "\n"
    if s.data.getLastD ' ' = '\n' then parts.dropLast else parts

/-- The decimal value of a non-empty all-digit character list. -/
def digitsToNat? (cs : List Char) : Option Nat :=
  if cs ≠ [] ∧ cs.all (fun c => c.isDigit) then
    some (cs.foldl (fun n c => n * 10 + (c.toNat - 48)) 0)
  else none

/-- Python `int(str)`: strip whitespace, allow one leading sign, then
decimal digits; anything else raises a `ValueError` (modelled as `none`). -/
def pyInt? (s : String) : Option Int :=
  match (pyStrip s).data with
  | '-' :: rest => (digitsToNat? rest).map (fun n => -(n : Int))
  | '+' :: rest => (digitsToNat? rest).map (fun n => (n : Int))
  | cs => (digitsToNat? cs).map (fun n => (n : Int))

/-- Python `" ".join(parts)`. -/
def joinWithSpace : List String → String
  | [] => ""
  | [x] => x
  | x :: xs => x ++ " " ++ joinWithSpace xs

/-- Python `str.lstrip()`: drop leading whitespace characters. -/
def pyLstrip (s : String) : String :=
  String.mk (s.data.dropWhile (fun c => c.isWhitespace))

/-- Python slicing `s[:n]`: the first `n` characters (fewer when `s` is
shorter). -/
def strTake (s : String) (n : Nat) : String :=
  String.mk (s.data.take n)

/-- Python `" " * n`: a run of `n` space characters. -/
def spacesStr (n : Nat) : String :=
  String.mk (List.replicate n ' ')

/-- The leading whitespace of a line, as matched by the regular expression
`(?P<indent>^\s+)` in the source (empty when the line starts with a
non-whitespace character, in which case the source asserts). -/
def leadingWs (s : String) : String :=
  String.mk (s.data.takeWhile (fun c => c.isWhitespace))

/-- Python `needle in hay` for strings: substring containment. -/
def strContains (hay needle : String) : Bool :=
  (List.range (hay.length + 1)).any (fun i => needle.data.isPrefixOf (hay.data.drop i))

/-- A string free of embedded newline characters. -/
def noNl (s : String) : Prop := '\n' ∉ s.data

instance (s : String) : Decidable (noNl s) := by
  unfold noNl; infer_instance

/-! ## util.py: CommandResult, CommandError, run_cmd, retry_async_run_cmd -/

/-- `CommandResult` from util.py: exit code, decoded stdout, decoded
stderr of a finished process. -/
structure CommandResult where
  exit_code : Int
  stdout : String
  stderr : String
deriving DecidableEq, Repr

/-- `CommandError` from util.py: carries the result of the failed command
and the exception message. -/
structure CommandError where
  command_result : CommandResult
  message : String
deriving DecidableEq, Repr

/-- The Python exceptions that the embedded code can raise.
`CommandError` is a `RuntimeError` subclass; the others are not. -/
inductive PyExc where
  | commandError (e : CommandError)
  | runtimeError (msg : String)
  | valueError (msg : String)
  | assertionError (msg : String)
  | indexError
  | userError (msg : String)
deriving DecidableEq, Repr

/-- Whether an exception is caught by `except RuntimeError` (util.py line
171): `CommandError` subclasses `RuntimeError`. -/
def PyExc.isRuntimeError : PyExc → Bool
  | .commandError _ => true
  | .runtimeError _ => true
  | _ => false

/-- The constructor of `CommandError` (util.py lines 40-48): it asserts
that the stored result has a non-zero exit code, so construction fails
with an `AssertionError` on a zero exit code. -/
def CommandError.init (command_result : CommandResult) (msg : String) :
    Except PyExc CommandError :=
  if command_result.exit_code ≠ 0 then .ok ⟨command_result, msg⟩
  else .error (.assertionError
    ("The command must have failed but it has exit code " ++
      toString command_result.exit_code ++ "."))

/-- The message of the `CommandError` raised by `run_cmd` (util.py line
102). -/
def cmdFailMsg (cmd : String) (r : CommandResult) : String :=
  "Command " ++ cmd ++ " failed (exit code " ++ toString r.exit_code ++
    ") with stdout: \x27" ++ r.stdout ++ "\x27, stderr: \x27" ++ r.stderr ++ "\x27"

/-- The command runner from util.py (lines 51-109, named after
:command:`run` there), given the behaviour `proc` of the spawned process
(its exit code and captured output): on a non-zero exit code with
`raise_on_error` set it raises a `CommandError` carrying the full result,
otherwise it returns the result unchanged. -/
def runCmd (cmd : String) (proc : CommandResult) (raise_on_error : Bool) :
    Except PyExc CommandResult :=
  if raise_on_error = true ∧ proc.exit_code ≠ 0 then
    match CommandError.init proc (cmdFailMsg cmd proc) with
    | .ok e => .error (.commandError e)
    | .error a => .error a
  else .ok proc

/-- The message of the trailing `assert False` in `retry_async_run_cmd`
(util.py line 180). -/
def unreachableMsg : String := "This code must be unreachable"

/-- The `for i in range(retries)` loop of `retry_async_run_cmd` (util.py
lines 167-180). `res j` is the outcome of the `j`-th invocation of the
coroutine (0-based); `n` is `retries`; `i` is the current loop index and
`rem = n - i` the remaining iterations. The second component of the
result counts how often the coroutine was invoked. Failures that are not
`RuntimeError`s escape the `except` clause at once; a `RuntimeError`
before the last iteration is swallowed; on the last iteration it is
re-raised. Falling off the loop hits `assert False`. -/
def retryLoop (res : Nat → Except PyExc α) (n : Nat) :
    Nat → Nat → Except PyExc α × Nat
  | i, 0 => (.error (.assertionError unreachableMsg), i)
  | i, rem + 1 =>
    match res i with
    | .ok v => (.ok v, i + 1)
    | .error e =>
      if e.isRuntimeError then
        if i ≠ n - 1 then retryLoop res n (i + 1) rem
        else (.error e, i + 1)
      else (.error e, i + 1)

/-- The retry helper from util.py (lines 152-180): retry the coroutine up
to `retries` times. `range(retries)` iterates `retries.toNat` times (an
`int` argument that is zero or negative gives an empty range). -/
def retryAsyncRunCmd (res : Nat → Except PyExc α) (retries : Int) :
    Except PyExc α × Nat :=
  retryLoop res retries.toNat 0 retries.toNat

/-- Whether an `Except` value is a success. -/
def excIsOk : Except ε α → Bool
  | .ok _ => true
  | .error _ => false

instance [DecidableEq ε] [DecidableEq α] : DecidableEq (Except ε α)
  | .ok a, .ok b =>
    if h : a = b then .isTrue (by rw [h]) else .isFalse (by simp [h])
  | .ok _, .error _ => .isFalse (by simp)
  | .error _, .ok _ => .isFalse (by simp)
  | .error e, .error f =>
    if h : e = f then .isTrue (by rw [h]) else .isFalse (by simp [h])

/-! ## submitrequest.py: RequestState, SubmitRequest and the parser -/

/-- `RequestState` from submitrequest.py: the state of a submitrequest in
the Open Build Service. -/
inductive RequestState where
  | accepted
  | review
  | declined
  | new
  | revoked
  | superseded
deriving DecidableEq, Repr

/-- The string value of each `RequestState` member (its `__str__`). -/
def RequestState.value : RequestState → String
  | .accepted => "accepted"
  | .review => "review"
  | .declined => "declined"
  | .new => "new"
  | .revoked => "revoked"
  | .superseded => "superseded"

/-- `RequestState(s)`: look a member up by its value; `none` models the
`ValueError` raised for any other string. -/
def RequestState.ofValue? (s : String) : Option RequestState :=
  if s = "accepted" then some .accepted
  else if s = "review" then some .review
  else if s = "declined" then some .declined
  else if s = "new" then some .new
  else if s = "revoked" then some .revoked
  else if s = "superseded" then some .superseded
  else none

/-- `SubmitRequest` from submitrequest.py. -/
structure SubmitRequest where
  id : Int
  description : String
  source_project : String
  source_package : String
  source_revision : String
  destination_project : String
  state : RequestState
deriving DecidableEq, Repr

/-- The regular expression match `^(?P<state>\S+)\(\S+\)$` of
submitrequest.py line 76, returning the `state` group on a match: the
whole token must be free of whitespace and end in a closing parenthesis,
and the greedy `\S+` makes the group everything before the last opening
parenthesis that still leaves a non-empty parenthesised rest. -/
def parenMatch (s : String) : Option String :=
  let cs := s.data
  let n := cs.length
  if n < 4 then none
  else if cs.any (fun c => c.isWhitespace) then none
  else if cs.getLastD ' ' ≠ ')' then none
  else
    match ((List.range (n - 2)).filter
        (fun p => 1 ≤ p ∧ cs.getD p ' ' = '(')).getLast? with
    | some p => some (String.mk (cs.take p))
    | none => none

/-- Lines 76-77 of submitrequest.py: reduce a state token of the shape
`base(substatus)` to `base`; leave any other token unchanged. -/
def parenReduce (s : String) : String :=
  match parenMatch s with
  | some base => base
  | none => s

/-- Line 78 of submitrequest.py: parse the (reduced) state token against
the `RequestState` enumeration; an unknown value raises a `ValueError`. -/
def parseStateToken (state_str : String) : Except PyExc RequestState :=
  match RequestState.ofValue? (parenReduce state_str) with
  | some st => .ok st
  | none => .error (.valueError (parenReduce state_str ++ " is not a valid RequestState"))

/-- Lines 69-70 of submitrequest.py: `id = int(lines[0].split()[0])`.
A missing line or token raises an `IndexError`, a non-integer token a
`ValueError`. -/
def headerIdOf (lines : List String) : Except PyExc Int :=
  match lines[0]? with
  | none => .error .indexError
  | some line0 =>
    match (pySplitWs line0)[0]? with
    | none => .error .indexError
    | some t0 =>
      match pyInt? t0 with
      | none => .error (.valueError ("invalid literal for int() with base 10: " ++ t0))
      | some n => .ok n

/-- Line 75 of submitrequest.py: `state_str = lines[0].split()[1].split(":")[1]`. -/
def stateStrOf (lines : List String) : Except PyExc String :=
  match lines[0]? with
  | none => .error .indexError
  | some line0 =>
    match (pySplitWs line0)[1]? with
    | none => .error .indexError
    | some t1 =>
      match (pySplitStr t1 ":")[1]? with
      | none => .error .indexError
      | some s => .ok s

/-- Lines 82-84 of submitrequest.py: the submit line is line 1 unless
line 1 starts with the token `Created`, in which case it is line 2. -/
def findSubmitIdx (lines : List String) : Except PyExc Nat :=
  match lines[1]? with
  | none => .error .indexError
  | some line1 =>
    match (pySplitWs line1)[0]? with
    | none => .error .indexError
    | some t => .ok (if t = "Created" then 2 else 1)

/-- The whitespace-split fields of the submit line, as computed by line 85
of submitrequest.py. -/
def submitPartsOf (lines : List String) : Except PyExc (List String) :=
  match findSubmitIdx lines with
  | .error e => .error e
  | .ok idx =>
    match lines[idx]? with
    | none => .error .indexError
    | some l => .ok (pySplitWs l)

/-- The description-collecting loop of submitrequest.py (lines 104-123),
over the lines following the submit line. `indentLen` is
`len(indent) + len("Descr: ")`. The accumulator `descr` is the
`description` variable (`none` models Python `None`) and `started` the
`description_started` flag. A line is a continuation exactly when its
first `indentLen` characters are `indentLen` many spaces; its leading
whitespace is stripped and it is appended after a single space. The
`assert description` inside the continuation branch fails on a falsy
(empty or missing) accumulator. Before the description starts, a line
with no tokens raises an `IndexError` from `tmp[0]`. -/
def descrLoop (indentLen : Nat) :
    List String → Option String → Bool → Except PyExc (Option String)
  | [], descr, _ => .ok descr
  | line :: rest, descr, started =>
    if started then
      if strTake line indentLen = spacesStr indentLen then
        match descr with
        | none => .error (.assertionError "assert description")
        | some d =>
          if d = "" then .error (.assertionError "assert description")
          else descrLoop indentLen rest (some (d ++ " " ++ pyLstrip line)) true
      else .ok descr
    else
      match (pySplitWs line)[0]? with
      | none => .error .indexError
      | some h =>
        if h ≠ "Descr:" then descrLoop indentLen rest descr false
        else descrLoop indentLen rest (some (joinWithSpace (pySplitWs line).tail)) true

/-- `SubmitRequest.from_osc_output` from submitrequest.py (lines 52-138):
parse the osc output of a single request into a `SubmitRequest`.
The control flow follows the source line by line: header id, state
token, submit-line index, the four submit-line fields with the
`malformed request output` assertion, the indentation assertion, the
description loop, the missing-description `ValueError`, and finally the
`@` and `/` splits of the source token. -/
def SubmitRequest.from_osc_output (stdout : String) : Except PyExc SubmitRequest :=
  let lines := pySplitlines (pyStrip stdout)
  match headerIdOf lines with
  | .error e => .error e
  | .ok id =>
  match stateStrOf lines with
  | .error e => .error e
  | .ok state_str =>
  match parseStateToken state_str with
  | .error e => .error e
  | .ok state =>
  match findSubmitIdx lines with
  | .error e => .error e
  | .ok submit_idx =>
  match lines[submit_idx]? with
  | none => .error .indexError
  | some submitLine =>
  match pySplitWs submitLine with
  | [submit, full_src, arrow, dest] =>
    if submit = "submit:" ∧ arrow = "->" then
      let indent := leadingWs submitLine
      if indent = "" then .error (.assertionError "assert match")
      else
        match descrLoop (indent.length + 7) (lines.drop (submit_idx + 1)) none false with
        | .error e => .error e
        | .ok descr =>
        match descr with
        | none => .error (.valueError ("Submitrequest contains no description: " ++ stdout))
        | some d =>
          if d = "" then .error (.valueError ("Submitrequest contains no description: " ++ stdout))
          else
            match pySplitStr full_src "@" with
            | [src, rev] =>
              match pySplitStr src "/" with
              | [prj, pkg] =>
                .ok { id := id, description := d, source_project := prj,
                      source_package := pkg, source_revision := rev,
                      destination_project := dest, state := state }
              | _ => .error (.valueError "not enough values to unpack")
            | _ => .error (.valueError "not enough values to unpack")
    else .error (.assertionError "malformed request output")
  | _ => .error (.valueError "not enough values to unpack")

/-- The block loop of `_submit_requests_from_osc` (submitrequest.py lines
145-153): parse every blank-line-separated chunk in order; the first
failing chunk aborts the whole call. -/
def parseBlocks : List String → Except PyExc (List SubmitRequest)
  | [] => .ok []
  | b :: rest =>
    match SubmitRequest.from_osc_output b with
    | .error e => .error e
    | .ok r =>
      match parseBlocks rest with
      | .error e => .error e
      | .ok rs => .ok (r :: rs)

/-- `_submit_requests_from_osc` from submitrequest.py (lines 141-153):
the sentinel `No results for package` yields the empty list; otherwise
the output is split on blank lines and each chunk parsed. -/
def submitRequestsFromOsc (stdout : String) : Except PyExc (List SubmitRequest) :=
  if strContains stdout "No results for package" then .ok []
  else parseBlocks (pySplitStr stdout "\n\n")

/-! ## update.py: Package, the Updater workflow -/

/-- `Package` from update.py: a project/package pair. -/
structure Package where
  project : String
  package : String
deriving DecidableEq, Repr

/-- `str(Package)`: the canonical `project/package` form. -/
def Package.str (p : Package) : String :=
  p.project ++ "/" ++ p.package

/-- The commands that `Updater.update_package` passes to its `run`
helper, one constructor per call site in update.py, each carrying the
strings interpolated into the command at that call site. -/
inductive OscCmd where
  | branch (cli proj pkg : String) (tgt : Option String)
  | checkout (cli target_pkg tmp : String)
  | add (cli fname : String)
  | status (cli : String)
  | vcci (cli sub msg : String)
  | serviceWait (cli target_pkg : String)
  | submitreq (cli msg : String)
  | rdeleteNoChange (cli target_pkg : String)
  | rdeleteOnError (cli target_pkg : String)
deriving DecidableEq, Repr

/-- The exact command string built at each call site of update.py
(lines 116-118, 124, 128, 130, 136-138, 142, 146, 149, 159-161). The
branch command appends the target project only when it is present and
non-empty (Python truthiness of `target_project`). -/
def OscCmd.render : OscCmd → String
  | .branch cli proj pkg tgt =>
    let base := cli ++ " branch " ++ proj ++ " " ++ pkg
    match tgt with
    | some t => if t ≠ "" then base ++ " " ++ t else base
    | none => base
  | .checkout cli target_pkg tmp => cli ++ " co " ++ target_pkg ++ " -o " ++ tmp
  | .add cli fname => cli ++ " add " ++ fname
  | .status cli => cli ++ " st"
  | .vcci cli sub msg => cli ++ " " ++ sub ++ " -m \"" ++ msg ++ "\""
  | .serviceWait cli target_pkg =>
    cli ++ " service wait " ++
      String.mk (target_pkg.data.map (fun c => if c = '/' then ' ' else c))
  | .submitreq cli msg => cli ++ " sr --cleanup -m \"" ++ msg ++ "\""
  | .rdeleteNoChange cli target_pkg =>
    cli ++ " rdelete " ++ target_pkg ++ " -m \x27cleanup as nothing changed\x27"
  | .rdeleteOnError cli target_pkg =>
    cli ++ " rdelete " ++ target_pkg ++ " -m \x27cleanup on error\x27"

/-- Whether a command is a remote removal (`osc rdelete`). -/
def OscCmd.isRdelete : OscCmd → Bool
  | .rdeleteNoChange _ _ => true
  | .rdeleteOnError _ _ => true
  | _ => false

/-- Whether a command is a changelog, commit or submit command
(`osc vc`, `osc ci`, `osc sr`). -/
def OscCmd.isVcCiSr : OscCmd → Bool
  | .vcci _ _ _ => true
  | .submitreq _ _ => true
  | _ => false

/-- The number of remote removal commands in a trace. -/
def countRdelete (t : List OscCmd) : Nat :=
  t.countP (fun c => c.isRdelete)

/-- The environment of one `update_package` call: the behaviour of every
external process the workflow may spawn (exit code and captured output,
keyed by the full command string) and the outcome of the caller-supplied
`add_files` method (which may raise any exception). -/
structure UpdateEnv where
  proc : String → CommandResult
  addFiles : Except PyExc (List String)

/-- The arguments of one `update_package` call, together with the
`osc_cli` field of the `Updater` and the name of the temporary working
directory that the `aiofiles` context manager produced. -/
structure UpdateConfig where
  osc_cli : String
  source_package : Package
  commit_msg : String
  target_project : Option String
  cleanup_on_error : Bool
  submit_package : Bool
  cleanup_on_no_change : Bool
  tmp : String

/-- The trace of commands issued so far. -/
abbrev Trace := List OscCmd

/-- Sequencing of workflow steps: run `x`, and on success feed its value
to `f`; an exception short-circuits, keeping the trace at the point of
failure (the model of Python exception propagation inside the `try`
block). -/
def updBind (x : Trace → Except PyExc α × Trace)
    (f : α → Trace → Except PyExc β × Trace) (t : Trace) :
    Except PyExc β × Trace :=
  match x t with
  | (.ok a, t2) => f a t2
  | (.error e, t2) => (.error e, t2)

/-- The `run` helper of `update_package` (update.py lines 104-112): issue
the command (recording it in the trace), run it through the command
runner with `raise_on_error=True`, and return the captured stdout. -/
def runStep (env : UpdateEnv) (c : OscCmd) (t : Trace) :
    Except PyExc String × Trace :=
  let t2 := t ++ [c]
  match runCmd c.render (env.proc c.render) true with
  | .ok r => (.ok r.stdout, t2)
  | .error e => (.error e, t2)

/-- Step 1 of `update_package` (update.py lines 116-122): branch the
source package, then read the checkout command from the third output
line and take its last space-separated token as the branched package
name. -/
def branchPhase (env : UpdateEnv) (cfg : UpdateConfig) :
    Trace → Except PyExc String × Trace :=
  updBind (runStep env (.branch cfg.osc_cli cfg.source_package.project
      cfg.source_package.package cfg.target_project))
    (fun out t =>
      match (pySplitStr out "\n")[2]? with
      | none => (.error .indexError, t)
      | some co_cmd => (.ok ((pySplitStr co_cmd " ").getLastD ""), t))

/-- The `for fname in written_files` staging loop (update.py lines
127-128). -/
def addLoop (env : UpdateEnv) (cli : String) :
    List String → Trace → Except PyExc Unit × Trace
  | [], t => (.ok (), t)
  | fname :: rest, t =>
    updBind (runStep env (.add cli fname)) (fun _ => addLoop env cli rest) t

/-- The `for cmd in ["vc", "ci"]` loop (update.py lines 141-142). -/
def vcciLoop (env : UpdateEnv) (cli msg : String) :
    List String → Trace → Except PyExc Unit × Trace
  | [], t => (.ok (), t)
  | sub :: rest, t =>
    updBind (runStep env (.vcci cli sub msg)) (fun _ => vcciLoop env cli msg rest) t

/-- Steps 2-7 of `update_package` (update.py lines 124-149): check out
the branched package, write and stage the new files, detect changes (an
empty status output returns early, removing the branch when
`cleanup_on_no_change` is set), write the changelog and commit, wait for
services, and submit. -/
def stepsAfterBranch (env : UpdateEnv) (cfg : UpdateConfig) (target_pkg : String) :
    Trace → Except PyExc Unit × Trace :=
  updBind (runStep env (.checkout cfg.osc_cli target_pkg cfg.tmp)) (fun _ =>
  updBind (fun t => (env.addFiles, t)) (fun written_files =>
  updBind (addLoop env cfg.osc_cli written_files) (fun _ =>
  updBind (runStep env (.status cfg.osc_cli)) (fun st_out =>
    if st_out = "" then
      if cfg.cleanup_on_no_change then
        updBind (runStep env (.rdeleteNoChange cfg.osc_cli target_pkg))
          (fun _ t => (.ok (), t))
      else (fun t => (.ok (), t))
    else
      updBind (vcciLoop env cfg.osc_cli cfg.commit_msg ["vc", "ci"]) (fun _ =>
      updBind (runStep env (.serviceWait cfg.osc_cli target_pkg)) (fun _ =>
        if cfg.submit_package then
          updBind (runStep env (.submitreq cfg.osc_cli cfg.commit_msg))
            (fun _ t => (.ok (), t))
        else (fun t => (.ok (), t))))))))

/-- `Updater.update_package` (update.py lines 60-162). The `try` block
runs step 1 and then steps 2-7; on an exception from steps 2-7 the
`except` block issues a remote removal of the branched package when
`cleanup_on_error` is set and the branched package name is truthy, and
re-raises — unless that removal itself raises, in which case its own
exception propagates instead. An exception from step 1 reaches the same
handler with `target_pkg` still `None`, so the handler only re-raises. -/
def updatePackage (env : UpdateEnv) (cfg : UpdateConfig) :
    Except PyExc Unit × Trace :=
  updBind (branchPhase env cfg)
    (fun target_pkg t =>
      match stepsAfterBranch env cfg target_pkg t with
      | (.ok _, t2) => (.ok (), t2)
      | (.error e, t2) =>
        if cfg.cleanup_on_error ∧ target_pkg ≠ "" then
          match runStep env (.rdeleteOnError cfg.osc_cli target_pkg) t2 with
          | (.ok _, t3) => (.error e, t3)
          | (.error e2, t3) => (.error e2, t3)
        else (.error e, t2))
    []

/-! ## Concrete fixtures used by witnesses and counterexamples -/

/-- A fixed `update_package` call: `osc` cli, package `P/p`, message `m`,
no target project, `cleanup_on_error=True`, `submit_package=True`,
`cleanup_on_no_change=True`, scratch directory `/tmp/x`. -/
def cfgW : UpdateConfig :=
  { osc_cli := "osc", source_package := Package.mk "P" "p", commit_msg := "m",
    target_project := none, cleanup_on_error := true, submit_package := true,
    cleanup_on_no_change := true, tmp := "/tmp/x" }

/-- The branch-command output used by the fixtures: the checkout command
sits on the third line and its last token is the branched package. -/
def brOutW : String := "A\n\nosc co home:u/p"

/-- Environment in which every command succeeds, the working copy has a
change, and only the `service wait` command fails. -/
def envSwFail : UpdateEnv :=
  { proc := fun s =>
      if s = "osc branch P p" then CommandResult.mk 0 brOutW ""
      else if s = "osc service wait home:u p" then CommandResult.mk 1 "" "swfail"
      else CommandResult.mk 0 "x" "",
    addFiles := .ok [] }

/-- Environment in which the working copy has no change and exactly the
no-change removal command fails. -/
def envRdncFail : UpdateEnv :=
  { proc := fun s =>
      if s = "osc branch P p" then CommandResult.mk 0 brOutW ""
      else if s = "osc st" then CommandResult.mk 0 "" ""
      else if s = "osc rdelete home:u/p -m \x27cleanup as nothing changed\x27" then
        CommandResult.mk 1 "" "rdncfail"
      else CommandResult.mk 0 "x" "",
    addFiles := .ok [] }

/-- Environment in which `service wait` fails and the subsequent
on-error removal command fails as well. -/
def envSwRdFail : UpdateEnv :=
  { proc := fun s =>
      if s = "osc branch P p" then CommandResult.mk 0 brOutW ""
      else if s = "osc service wait home:u p" then CommandResult.mk 1 "" "swfail"
      else if s = "osc rdelete home:u/p -m \x27cleanup on error\x27" then
        CommandResult.mk 1 "" "rdfail"
      else CommandResult.mk 0 "x" "",
    addFiles := .ok [] }

/-- Environment for the no-change path: all commands succeed, two files
are written, and the status output is empty. -/
def envNoChange : UpdateEnv :=
  { proc := fun s =>
      if s = "osc branch P p" then CommandResult.mk 0 brOutW ""
      else if s = "osc st" then CommandResult.mk 0 "" ""
      else CommandResult.mk 0 "x" "",
    addFiles := .ok ["f1", "f2"] }

/-- A request block whose description continuation line is indented with
tab characters: its first 15 characters are whitespace but not spaces. -/
def c2Block : String :=
  "1 State:new\n        submit: a/b@1 -> c\n        Descr: first\n\t\t\t\t\t\t\t\t\t\t\t\t\t\t\tsecond"

/-- The tab-indented line of `c2Block`. -/
def c2TabLine : String := "\t\t\t\t\t\t\t\t\t\t\t\t\t\t\tsecond"

/-- A request block whose state token has the shape `base(anything)`
with a parenthesis inside the parenthetical part. -/
def c8Block : String := "1 State:review(a(b)\n submit: a/b@1 -> c\n Descr: d"

/-- A coroutine behaviour that fails with a recoverable `RuntimeError`
on the first two attempts and succeeds on the third. -/
def resFlaky : Nat → Except PyExc Nat := fun j =>
  if j < 2 then .error (.runtimeError "boom") else .ok 7

/-- A coroutine behaviour that always fails with a recoverable
`RuntimeError` naming the attempt. -/
def resAlwaysFail : Nat → Except PyExc Nat := fun j =>
  .error (.runtimeError ("boom " ++ toString j))

/-- Two well-formed request blocks separated by a blank line. -/
def c5Stdout : String :=
  "1 State:new\n submit: a/b@1 -> c\n Descr: one\n\n2 State:declined\n submit: d/e@2 -> f\n Descr: two"

/-- A well-formed block followed by a malformed one. -/
def c5Bad : String := "1 State:new\n submit: a/b@1 -> c\n Descr: one\n\ngarbage"

/-- The record of the first block of `c5Stdout`. -/
def c5Rec1 : SubmitRequest :=
  SubmitRequest.mk 1 "one" "a" "b" "1" "c" RequestState.new

/-- The record of the second block of `c5Stdout`. -/
def c5Rec2 : SubmitRequest :=
  SubmitRequest.mk 2 "two" "d" "e" "2" "f" RequestState.declined

/-- The per-block record function used by the C5 witness. -/
def c5f : String → SubmitRequest := fun b =>
  if b = "1 State:new\n submit: a/b@1 -> c\n Descr: one" then c5Rec1 else c5Rec2

/-! ## Lemmas about the retry loop -/

theorem retryLoop_ok_of_recoverable (res : Nat → Except PyExc α) (n k : Nat) (v : α)
    (hk : k < n)
    (hfail : ∀ j, j < k → ∃ e, res j = .error e ∧ e.isRuntimeError = true)
    (hok : res k = .ok v) :
    ∀ rem i, i + rem = n → i ≤ k → retryLoop res n i rem = (.ok v, k + 1) := by
  intro rem
  induction rem with
  | zero => intro i hin hik; omega
  | succ m ih =>
    intro i hin hik
    rcases Nat.lt_or_ge i k with hlt | hge
    · obtain ⟨e, he, her⟩ := hfail i hlt
      have hne : i ≠ n - 1 := by omega
      have hrec := ih (i + 1) (by omega) (by omega)
      simp only [retryLoop, he, her, if_true, hne, ite_true, ne_eq,
        not_false_iff]
      exact hrec
    · have hik2 : i = k := Nat.le_antisymm hik hge
      subst hik2
      simp [retryLoop, hok]

theorem retryLoop_allFail (res : Nat → Except PyExc α) (n : Nat) (e : PyExc)
    (hall : ∀ j, j < n → ∃ e2, res j = .error e2 ∧ e2.isRuntimeError = true)
    (hlast : res (n - 1) = .error e) :
    ∀ rem i, i + rem = n → i < n → retryLoop res n i rem = (.error e, n) := by
  intro rem
  induction rem with
  | zero => intro i hin hik; omega
  | succ m ih =>
    intro i hin hik
    by_cases hne : i = n - 1
    · subst hne
      have hrt : PyExc.isRuntimeError e = true := by
        obtain ⟨e2, he2, her2⟩ := hall (n - 1) (by omega)
        rw [hlast] at he2
        cases he2
        exact her2
      have hn1 : n - 1 + 1 = n := by omega
      simp [retryLoop, hlast, hrt, hn1]
    · obtain ⟨e2, he2, her2⟩ := hall i hik
      have hrec := ih (i + 1) (by omega) (by omega)
      simp only [retryLoop, he2, her2, if_true, hne, ne_eq, not_false_iff,
        ite_true]
      exact hrec

theorem retryLoop_last_attempt (res : Nat → Except PyExc α) (n : Nat) :
    ∀ rem i, 0 < rem → i + rem = n →
    ∃ m, i ≤ m ∧ m < n ∧ retryLoop res n i rem = (res m, m + 1) := by
  intro rem
  induction rem with
  | zero => intro i h0 _; omega
  | succ r ih =>
    intro i _ hin
    match hres : res i with
    | .ok v =>
      exact ⟨i, Nat.le_refl i, by omega, by simp [retryLoop, hres]⟩
    | .error e =>
      by_cases hrt : e.isRuntimeError = true
      · by_cases hne : i = n - 1
        · subst hne
          refine ⟨n - 1, Nat.le_refl _, by omega, ?_⟩
          simp [retryLoop, hres, hrt]
        · have hr : 0 < r := by omega
          obtain ⟨m, him, hmn, heq⟩ := ih (i + 1) hr (by omega)
          refine ⟨m, by omega, hmn, ?_⟩
          simp only [retryLoop, hres, hrt, hne, ne_eq, not_false_iff, ite_true, if_true]
          exact heq
      · refine ⟨i, Nat.le_refl i, by omega, ?_⟩
        simp [retryLoop, hres, hrt]

/-! ## Claims about util.py -/

/-- Claim C3: for every operation and every `k` with `0 <= k <
max_attempts`, an operation that fails with the recoverable kind exactly
`k` times and then succeeds is invoked exactly `k+1` times and the
success value is returned; an operation that fails with the recoverable
kind on all `max_attempts` attempts is invoked exactly `max_attempts`
times, no more, and the failure of the last attempt propagates. -/
theorem c3_retry_attempt_counts (res : Nat → Except PyExc α) (retries : Int) :
    (∀ k v, k < retries.toNat →
      (∀ j, j < k → ∃ e, res j = .error e ∧ e.isRuntimeError = true) →
      res k = .ok v →
      retryAsyncRunCmd res retries = (.ok v, k + 1))
    ∧ (∀ e, 0 < retries.toNat →
      (∀ j, j < retries.toNat → ∃ e2, res j = .error e2 ∧ e2.isRuntimeError = true) →
      res (retries.toNat - 1) = .error e →
      retryAsyncRunCmd res retries = (.error e, retries.toNat)) := by
  constructor
  · intro k v hk hfail hok
    exact retryLoop_ok_of_recoverable res _ k v hk hfail hok _ 0 (by omega) (by omega)
  · intro e hn hall hlast
    exact retryLoop_allFail res _ e hall hlast _ 0 (by omega) hn

/-- Witness for C3: two recoverable failures then success gives three
invocations and the success value; three failures out of three attempts
give three invocations and the final failure. -/
theorem c3_witness :
    retryAsyncRunCmd resFlaky 5 = (.ok 7, 3) ∧
    retryAsyncRunCmd resAlwaysFail 3 = (.error (.runtimeError "boom 2"), 3) := by
  constructor
  · exact (c3_retry_attempt_counts resFlaky 5).1 2 7 (by decide)
      (fun j hj => ⟨.runtimeError "boom", by simp [resFlaky, hj], rfl⟩) (by decide)
  · exact (c3_retry_attempt_counts resAlwaysFail 3).2 (.runtimeError "boom 2")
      (by decide)
      (fun j hj => ⟨.runtimeError ("boom " ++ toString j), rfl, rfl⟩)
      (by decide)

/-- Claim C10: the retry helper needs `retries >= 1`: with a positive
count the call returns the outcome of the last attempt actually made
(success, or that attempt's failure), having invoked the operation at
least once, so the trailing unreachable-code assertion is never hit;
with `retries <= 0` the operation is never invoked (invocation count 0)
and the call fails on the trailing assertion. -/
theorem c10_retry_requires_positive (res : Nat → Except PyExc α) (retries : Int) :
    (retries ≤ 0 →
      retryAsyncRunCmd res retries =
        (.error (.assertionError unreachableMsg), 0))
    ∧ (1 ≤ retries →
      ∃ m, m + 1 ≤ retries.toNat ∧
        retryAsyncRunCmd res retries = (res m, m + 1)) := by
  constructor
  · intro h
    have h0 : retries.toNat = 0 := by omega
    show retryLoop res retries.toNat 0 retries.toNat = _
    rw [h0]
    rfl
  · intro h
    have hn : 0 < retries.toNat := by omega
    obtain ⟨m, _, hmn, heq⟩ :=
      retryLoop_last_attempt res retries.toNat retries.toNat 0 hn (by omega)
    exact ⟨m, by omega, heq⟩

/-- Witness for C10: a negative count fails on the assertion with zero
invocations; a positive count returns the outcome of an actual
attempt. -/
theorem c10_witness :
    retryAsyncRunCmd resFlaky (-3) = (.error (.assertionError unreachableMsg), 0) ∧
    (∃ m, m + 1 ≤ (2 : Int).toNat ∧
      retryAsyncRunCmd resAlwaysFail 2 = (resAlwaysFail m, m + 1)) := by
  constructor
  · exact (c10_retry_requires_positive resFlaky (-3)).1 (by decide)
  · exact (c10_retry_requires_positive resAlwaysFail 2).2 (by decide)

/-- Claim C7: a command whose process exits non-zero makes the runner
fail with a `CommandError` carrying the full result when
`raise_on_error` is set, and return the result unchanged (non-zero code
visible) when it is not; and every `CommandError` that its constructor
lets through carries a result with a non-zero exit code. -/
theorem c7_runCmd_semantics (cmd : String) (proc : CommandResult) :
    (proc.exit_code ≠ 0 →
      runCmd cmd proc true =
        .error (.commandError (CommandError.mk proc (cmdFailMsg cmd proc))))
    ∧ runCmd cmd proc false = .ok proc
    ∧ (∀ (r : CommandResult) (m : String) (e : CommandError),
        CommandError.init r m = .ok e →
        e.command_result = r ∧ e.command_result.exit_code ≠ 0) := by
  refine ⟨fun h => ?_, ?_, fun r m e he => ?_⟩
  · simp [runCmd, CommandError.init, h]
  · simp [runCmd]
  · unfold CommandError.init at he
    by_cases h0 : r.exit_code ≠ 0
    · rw [if_pos h0] at he
      cases he
      exact ⟨rfl, h0⟩
    · rw [if_neg h0] at he
      cases he

/-- Witness for C7 at a process exiting 1. -/
theorem c7_witness :
    runCmd "c" (CommandResult.mk 1 "o" "e") true =
      .error (.commandError (CommandError.mk (CommandResult.mk 1 "o" "e")
        (cmdFailMsg "c" (CommandResult.mk 1 "o" "e")))) ∧
    runCmd "c" (CommandResult.mk 1 "o" "e") false = .ok (CommandResult.mk 1 "o" "e") ∧
    ∀ e, CommandError.init (CommandResult.mk 1 "o" "e") "m" = .ok e →
      e.command_result = CommandResult.mk 1 "o" "e" ∧
        e.command_result.exit_code ≠ 0 :=
  ⟨(c7_runCmd_semantics "c" (CommandResult.mk 1 "o" "e")).1 (by decide),
   (c7_runCmd_semantics "c" (CommandResult.mk 1 "o" "e")).2.1,
   fun e => (c7_runCmd_semantics "c" (CommandResult.mk 1 "o" "e")).2.2
     (CommandResult.mk 1 "o" "e") "m" e⟩

/-! ## Claims about the parser: sentinel -/

/-- Claim C9: any raw output containing the sentinel substring
`No results for package` parses to the empty sequence, whatever else it
contains. -/
theorem c9_sentinel_yields_empty (stdout : String)
    (h : strContains stdout "No results for package" = true) :
    submitRequestsFromOsc stdout = .ok [] := by
  simp [submitRequestsFromOsc, h]

/-- Witness for C9: the sentinel buried in other content still yields an
empty list. -/
theorem c9_witness :
    submitRequestsFromOsc "garbage No results for package X\n\nmore" = .ok [] :=
  c9_sentinel_yields_empty _ (by decide)

/-! ## Claims about the parser: parse_many -/

theorem parseBlocks_all_ok (f : String → SubmitRequest) :
    ∀ bs : List String,
    (∀ b ∈ bs, SubmitRequest.from_osc_output b = .ok (f b)) →
    parseBlocks bs = .ok (bs.map f) := by
  intro bs
  induction bs with
  | nil => intro _; rfl
  | cons b rest ih =>
    intro h
    have hb := h b (List.mem_cons_self b rest)
    have hrest := ih (fun x hx => h x (List.mem_cons_of_mem b hx))
    simp [parseBlocks, hb, hrest]

theorem parseBlocks_mem_err :
    ∀ (bs : List String) (b : String), b ∈ bs →
    excIsOk (SubmitRequest.from_osc_output b) = false →
    excIsOk (parseBlocks bs) = false := by
  intro bs
  induction bs with
  | nil => intro b hb; cases hb
  | cons a rest ih =>
    intro b hb hberr
    match ha : SubmitRequest.from_osc_output a with
    | .error e => simp [parseBlocks, ha, excIsOk]
    | .ok r =>
      rcases List.mem_cons.mp hb with hba | hbrest
      · subst hba
        rw [ha] at hberr
        simp [excIsOk] at hberr
      · have := ih b hbrest hberr
        match hrest : parseBlocks rest with
        | .error e => simp [parseBlocks, ha, hrest, excIsOk]
        | .ok rs =>
          rw [hrest] at this
          simp [excIsOk] at this

/-- Claim C5: when the sentinel is absent, an output all of whose
blank-line-separated blocks parse successfully yields exactly one record
per block, in block order, each record being the parse of its own block
(so it matches that block's identifier, state, source project, package,
revision, destination and description); and if any block fails to
parse, the whole call fails with no partial result. -/
theorem c5_parse_many (stdout : String) (f : String → SubmitRequest)
    (hno : strContains stdout "No results for package" = false) :
    ((∀ b ∈ pySplitStr stdout "\n\n", SubmitRequest.from_osc_output b = .ok (f b)) →
      submitRequestsFromOsc stdout = .ok ((pySplitStr stdout "\n\n").map f))
    ∧ (∀ b ∈ pySplitStr stdout "\n\n",
        excIsOk (SubmitRequest.from_osc_output b) = false →
        excIsOk (submitRequestsFromOsc stdout) = false) := by
  constructor
  · intro hall
    simp only [submitRequestsFromOsc, hno, Bool.false_eq_true, if_false]
    exact parseBlocks_all_ok f _ hall
  · intro b hb hberr
    simp only [submitRequestsFromOsc, hno, Bool.false_eq_true, if_false]
    exact parseBlocks_mem_err _ b hb hberr

/-- Witness for C5: a two-block output parses to the two records in
order; an output with one malformed block fails as a whole. -/
theorem c5_witness :
    submitRequestsFromOsc c5Stdout = .ok [c5Rec1, c5Rec2] ∧
    excIsOk (submitRequestsFromOsc c5Bad) = false := by
  constructor
  · have h := (c5_parse_many c5Stdout c5f (by decide)).1 (by decide)
    rw [h]
    decide
  · exact (c5_parse_many c5Bad c5f (by decide)).2 "garbage" (by decide) (by decide)

/-! ## Claims about the parser: single-block failure modes -/

theorem descrLoop_no_descr (L : Nat) :
    ∀ ls : List String,
    (∀ l ∈ ls, ¬ ((pySplitWs l)[0]? = some "Descr:")) →
    descrLoop L ls none false = .error .indexError ∨
      descrLoop L ls none false = .ok none := by
  intro ls
  induction ls with
  | nil => intro _; right; rfl
  | cons l rest ih =>
    intro h
    have hl := h l (List.mem_cons_self l rest)
    cases h0 : (pySplitWs l)[0]? with
    | none => left; simp [descrLoop, h0]
    | some hd =>
      have hne : hd ≠ "Descr:" := by
        intro he
        exact hl (by rw [h0, he])
      have := ih (fun x hx => h x (List.mem_cons_of_mem l hx))
      simpa [descrLoop, h0, hne] using this

/-- Inversion of a successful parse: every field-producing step of
`SubmitRequest.from_osc_output` succeeded, the submit line carries the
literal `submit:` and `->` tokens, and the description is the non-empty
result of the description loop. -/
theorem from_osc_output_ok_inv (stdout : String) (r : SubmitRequest)
    (h : SubmitRequest.from_osc_output stdout = .ok r) :
    ∃ state_str submit_idx submitLine full_src dest d,
      stateStrOf (pySplitlines (pyStrip stdout)) = .ok state_str ∧
      parseStateToken state_str = .ok r.state ∧
      findSubmitIdx (pySplitlines (pyStrip stdout)) = .ok submit_idx ∧
      (pySplitlines (pyStrip stdout))[submit_idx]? = some submitLine ∧
      pySplitWs submitLine = ["submit:", full_src, "->", dest] ∧
      descrLoop ((leadingWs submitLine).length + 7)
        ((pySplitlines (pyStrip stdout)).drop (submit_idx + 1)) none false =
        .ok (some d) ∧
      r.description = d ∧ d ≠ "" := by
  simp only [SubmitRequest.from_osc_output] at h
  repeat any_goals split at h
  all_goals try exact Except.noConfusion h
  next =>
    rename_i xa idv h1 xb sstr h2 xc st h3 xd idx h4 xe sline h5 xf submit fsrc
      arrow dest h6 hcond hind xg xh d h7 hne xi src rev h8 xj prj pkg h9
    cases h
    refine ⟨sstr, idx, sline, fsrc, dest, d, h2, h3, h4, h5, ?_, h7, rfl, hne⟩
    rw [h6, hcond.1, hcond.2]

/-- Claim C6: a block with no line whose first whitespace-delimited token
is `Descr:` fails to parse; a successfully parsed request always has a
non-empty description; a block whose submit line does not carry the
literal `submit:` and `->` tokens at their expected positions fails to
parse; and a block whose state token, after discarding a parenthetical
sub-status, is not one of the six `RequestState` values fails to
parse. -/
theorem c6_parse_errors :
    (∀ stdout : String,
      (∀ l ∈ pySplitlines (pyStrip stdout), ¬ ((pySplitWs l)[0]? = some "Descr:")) →
      excIsOk (SubmitRequest.from_osc_output stdout) = false)
    ∧ (∀ (stdout : String) (r : SubmitRequest),
      SubmitRequest.from_osc_output stdout = .ok r → r.description ≠ "")
    ∧ (∀ stdout : String,
      (∀ b d : String,
        submitPartsOf (pySplitlines (pyStrip stdout)) ≠ .ok ["submit:", b, "->", d]) →
      excIsOk (SubmitRequest.from_osc_output stdout) = false)
    ∧ (∀ stdout : String,
      (∀ s : String, stateStrOf (pySplitlines (pyStrip stdout)) = .ok s →
        RequestState.ofValue? (parenReduce s) = none) →
      excIsOk (SubmitRequest.from_osc_output stdout) = false) := by
  refine ⟨?_, ?_, ?_, ?_⟩
  · intro stdout hno
    cases hr : SubmitRequest.from_osc_output stdout with
    | error e => simp [excIsOk]
    | ok r =>
      exfalso
      obtain ⟨sstr, idx, sline, fsrc, dest, d, hss, hst, hidx, hline, hparts,
        hdl, hdesc, hdne⟩ := from_osc_output_ok_inv stdout r hr
      rcases descrLoop_no_descr ((leadingWs sline).length + 7)
          ((pySplitlines (pyStrip stdout)).drop (idx + 1))
          (fun l hl => hno l (List.drop_subset _ _ hl)) with hcase | hcase
      · rw [hdl] at hcase
        exact Except.noConfusion hcase
      · rw [hdl] at hcase
        simp at hcase
  · intro stdout r hr
    obtain ⟨sstr, idx, sline, fsrc, dest, d, hss, hst, hidx, hline, hparts,
      hdl, hdesc, hdne⟩ := from_osc_output_ok_inv stdout r hr
    rw [hdesc]
    exact hdne
  · intro stdout hno
    cases hr : SubmitRequest.from_osc_output stdout with
    | error e => simp [excIsOk]
    | ok r =>
      exfalso
      obtain ⟨sstr, idx, sline, fsrc, dest, d, hss, hst, hidx, hline, hparts,
        hdl, hdesc, hdne⟩ := from_osc_output_ok_inv stdout r hr
      apply hno fsrc dest
      simp [submitPartsOf, hidx, hline, hparts]
  · intro stdout hbad
    cases hr : SubmitRequest.from_osc_output stdout with
    | error e => simp [excIsOk]
    | ok r =>
      exfalso
      obtain ⟨sstr, idx, sline, fsrc, dest, d, hss, hst, hidx, hline, hparts,
        hdl, hdesc, hdne⟩ := from_osc_output_ok_inv stdout r hr
      have hnone := hbad sstr hss
      simp [parseStateToken, hnone] at hst

/-- Witness for C6: a block with no description line fails; a parsed
block has a non-empty description; a block whose submit line starts with
`bad:` fails; a block with state token `wat` fails. -/
theorem c6_witness :
    excIsOk (SubmitRequest.from_osc_output "1 State:new\n submit: a/b@1 -> c") = false ∧
    (SubmitRequest.mk 1 "one" "a" "b" "1" "c" RequestState.new).description ≠ "" ∧
    excIsOk (SubmitRequest.from_osc_output "1 State:new\n bad: a/b@1 -> c\n Descr: d") = false ∧
    excIsOk (SubmitRequest.from_osc_output "1 State:wat\n submit: a/b@1 -> c\n Descr: d") = false := by
  refine ⟨?_, ?_, ?_, ?_⟩
  · exact c6_parse_errors.1 _ (by decide)
  · exact c6_parse_errors.2.1 "1 State:new\n submit: a/b@1 -> c\n Descr: one" _ (by decide)
  · refine c6_parse_errors.2.2.1 _ ?_
    intro b d h
    rw [show submitPartsOf (pySplitlines (pyStrip
      "1 State:new\n bad: a/b@1 -> c\n Descr: d")) =
      .ok ["bad:", "a/b@1", "->", "c"] from by decide] at h
    simp only [Except.ok.injEq, List.cons.injEq] at h
    exact absurd h.1 (by decide)
  · refine c6_parse_errors.2.2.2 _ ?_
    intro s h
    rw [show stateStrOf (pySplitlines (pyStrip
      "1 State:wat\n submit: a/b@1 -> c\n Descr: d")) = .ok "wat" from by decide] at h
    cases h
    decide

/-! ## Claim C2: description reconstruction -/

theorem strAppend_ne_empty (a b : String) (ha : a ≠ "") : a ++ b ≠ "" := by
  intro h
  have hd : a.data ++ b.data = [] := by
    have := congrArg String.data h
    simpa using this
  rcases List.append_eq_nil.mp hd with ⟨ha2, _⟩
  exact ha (by cases a; simp_all)

theorem noNl_append_lstrip (d c : String) (hd : noNl d) (hc : noNl c) :
    noNl (d ++ " " ++ pyLstrip c) := by
  unfold noNl at *
  intro hmem
  simp only [String.data_append, List.mem_append, pyLstrip] at hmem
  rcases hmem with (h | h) | h
  · exact hd h
  · simp at h
  · exact hc ((List.dropWhile_sublist _).subset h)

/-- Claim C2 (amended): once the description has started with the
non-empty segment `first`, the loop consumes a following line as a
continuation exactly while the line's first `indentLen` characters are
`indentLen` many space characters (in particular the line is at least
that long); the first line failing this test ends the description; the
result is `first` extended by each continuation with its leading
whitespace stripped, joined by single spaces; and it has no embedded
newline when the input lines have none. -/
theorem c2_description_reconstruction (L : Nat) :
    ∀ (conts : List String) (first : String) (rest : List String),
    first ≠ "" →
    (∀ c ∈ conts, strTake c L = spacesStr L) →
    (∀ r rs, rest = r :: rs → strTake r L ≠ spacesStr L) →
    descrLoop L (conts ++ rest) (some first) true =
      .ok (some (conts.foldl (fun d c => d ++ " " ++ pyLstrip c) first))
    ∧ (noNl first → (∀ c ∈ conts, noNl c) →
        noNl (conts.foldl (fun d c => d ++ " " ++ pyLstrip c) first)) := by
  intro conts
  induction conts with
  | nil =>
    intro first rest hf _ hstop
    constructor
    · cases rest with
      | nil => simp [descrLoop]
      | cons r rs =>
        have := hstop r rs rfl
        simp [descrLoop, this]
    · intro h _
      simpa using h
  | cons c cs ih =>
    intro first rest hf hconts hstop
    have hc := hconts c (List.mem_cons_self c cs)
    have hcs := fun x hx => hconts x (List.mem_cons_of_mem c hx)
    have hf2 : first ++ " " ++ pyLstrip c ≠ "" :=
      strAppend_ne_empty _ _ (strAppend_ne_empty _ _ hf)
    obtain ⟨ih1, ih2⟩ := ih (first ++ " " ++ pyLstrip c) rest hf2 hcs hstop
    constructor
    · simp only [List.cons_append, descrLoop, hc, ite_true, if_pos]
      rw [if_neg hf]
      exact ih1
    · intro hnl hcnl
      simp only [List.foldl_cons]
      exact ih2 (noNl_append_lstrip _ _ hnl (hcnl c (List.mem_cons_self c cs)))
        (fun x hx => hcnl x (List.mem_cons_of_mem c hx))

/-- Counterexample for C2 as stated: in `c2Block` the submit line is
indented by 8 characters, so the threshold is 15; the line after the
description line starts with 15 tab characters — all whitespace — yet
the parsed description is just `first`: the tab-indented line was not
consumed as a continuation, because the code compares against spaces,
not whitespace. -/
theorem c2_counterexample :
    (leadingWs "        submit: a/b@1 -> c").length + 7 = 15 ∧
    (∀ ch ∈ c2TabLine.data.take 15, ch.isWhitespace = true) ∧
    SubmitRequest.from_osc_output c2Block =
      .ok (SubmitRequest.mk 1 "first" "a" "b" "1" "c" RequestState.new) := by
  refine ⟨by decide, by decide, by decide⟩

/-- Witness for C2 (amended) at threshold 3 with two continuation lines
and a stopping line. -/
theorem c2_witness :
    descrLoop 3 (["   x", "    y"] ++ ["z"]) (some "ab") true =
      .ok (some ((["   x", "    y"] : List String).foldl
        (fun d c => d ++ " " ++ pyLstrip c) "ab")) ∧
    (["   x", "    y"] : List String).foldl
      (fun d c => d ++ " " ++ pyLstrip c) "ab" = "ab x y" := by
  constructor
  · exact (c2_description_reconstruction 3 ["   x", "    y"] "ab" ["z"] (by decide)
      (by decide) (fun r rs h => by cases h; decide)).1
  · decide

/-! ## Claim C8: parenthesised sub-status -/

theorem getD_mem_of_lt {α : Type} (l : List α) (p : Nat) (d : α) (h : p < l.length) :
    l.getD p d ∈ l := by
  rw [List.getD_eq_getElem l d h]
  exact List.getElem_mem h

theorem filter_range_single (L : Nat) (f : Nat → Bool) :
    ∀ m, L < m → (∀ p, p < m → (f p = true ↔ p = L)) →
    (List.range m).filter f = [L] := by
  intro m
  induction m with
  | zero => intro h; omega
  | succ m ih =>
    intro hLm hiff
    rw [List.range_succ, List.filter_append]
    by_cases hLm2 : L < m
    · have h1 := ih hLm2 (fun p hp => hiff p (by omega))
      have h2 : f m = false := by
        cases hfm : f m
        · rfl
        · exact absurd ((hiff m (by omega)).mp hfm) (by omega)
      simp [h1, List.filter_cons, h2]
    · have hLm3 : L = m := by omega
      subst hLm3
      have h1 : (List.range L).filter f = [] := by
        rw [List.filter_eq_nil_iff]
        intro a ha
        have halt := List.mem_range.mp ha
        intro hfa
        exact absurd ((hiff a (by omega)).mp hfa) (by omega)
      have hfL : f L = true := (hiff L (by omega)).mpr rfl
      simp [h1, List.filter_cons, hfL]

/-- The regular-expression model applied to a token built as
`base ++ "(" ++ sub ++ ")"`: when neither part contains whitespace or an
opening parenthesis and both are non-empty, the match group is exactly
`base`. -/
theorem parenMatch_concat (base sub : String)
    (hb : base ≠ "") (hs : sub ≠ "")
    (hbw : ∀ c ∈ base.data, c.isWhitespace = false)
    (hsw : ∀ c ∈ sub.data, c.isWhitespace = false)
    (hbp : '(' ∉ base.data) (hsp : '(' ∉ sub.data) :
    parenMatch (base ++ "(" ++ sub ++ ")") = some base := by
  have hbdata : base.data ≠ [] := fun h => hb (by cases base; simp_all)
  have hsdata : sub.data ≠ [] := fun h => hs (by cases sub; simp_all)
  have hL : 0 < base.data.length := List.length_pos.mpr hbdata
  have hM : 0 < sub.data.length := List.length_pos.mpr hsdata
  have hcs : (base ++ "(" ++ sub ++ ")").data =
      base.data ++ '(' :: (sub.data ++ [')']) := by
    simp [String.data_append]
  unfold parenMatch
  rw [hcs]
  have hn : (base.data ++ '(' :: (sub.data ++ [')'])).length =
      base.data.length + sub.data.length + 2 := by
    simp [List.length_append]
    omega
  rw [if_neg (by rw [hn]; omega)]
  have hws : (base.data ++ '(' :: (sub.data ++ [')'])).any
      (fun c => c.isWhitespace) = false := by
    rw [List.any_eq_false]
    intro c hc
    simp only [List.mem_append, List.mem_cons, List.mem_singleton,
      List.not_mem_nil, or_false] at hc
    rcases hc with h | h | h | h
    · simp [hbw c h]
    · subst h; decide
    · simp [hsw c h]
    · subst h; decide
  rw [if_neg (by rw [hws]; simp)]
  have hlast : (base.data ++ '(' :: (sub.data ++ [')'])).getLastD ' ' = ')' := by
    have he : base.data ++ '(' :: (sub.data ++ [')']) =
        (base.data ++ '(' :: sub.data) ++ [')'] := by simp
    rw [he, List.getLastD_concat]
  rw [if_neg (by rw [hlast]; simp)]
  have hfilter : ((List.range
      ((base.data ++ '(' :: (sub.data ++ [')'])).length - 2)).filter
        (fun p => decide (1 ≤ p ∧
          (base.data ++ '(' :: (sub.data ++ [')'])).getD p ' ' = '('))) =
      [base.data.length] := by
    apply filter_range_single
    · rw [hn]; omega
    · intro p hp
      rw [hn] at hp
      constructor
      · intro hf
        rw [decide_eq_true_eq] at hf
        obtain ⟨hp1, hpd⟩ := hf
        by_contra hne
        rcases Nat.lt_trichotomy p base.data.length with hlt | heq | hgt
        · rw [List.getD_append base.data ('(' :: (sub.data ++ [')'])) ' ' p hlt] at hpd
          exact hbp (hpd ▸ getD_mem_of_lt base.data p ' ' hlt)
        · exact hne heq
        · rw [List.getD_append_right base.data ('(' :: (sub.data ++ [')'])) ' ' p
            (by omega)] at hpd
          have hq : p - base.data.length = (p - base.data.length - 1) + 1 := by omega
          rw [hq, List.getD_cons_succ] at hpd
          have hqlt : p - base.data.length - 1 < sub.data.length := by omega
          rw [List.getD_append sub.data [')'] ' ' _ hqlt] at hpd
          exact hsp (hpd ▸ getD_mem_of_lt sub.data _ ' ' hqlt)
      · intro hpe
        subst hpe
        rw [decide_eq_true_eq]
        refine ⟨hL, ?_⟩
        rw [List.getD_append_right base.data ('(' :: (sub.data ++ [')'])) ' '
          base.data.length (Nat.le_refl _)]
        simp
  rw [hfilter]
  simp only [List.getLast?_singleton]
  rw [List.take_left]

/-- Claim C8 (amended): a state token of the shape `base(sub)` with
`base` one of the six states and `sub` a non-empty sub-status containing
no whitespace and no opening parenthesis parses to the base state, the
sub-status being discarded. -/
theorem c8_paren_substatus (st : RequestState) (sub : String)
    (hs : sub ≠ "")
    (hsw : ∀ c ∈ sub.data, c.isWhitespace = false)
    (hsp : '(' ∉ sub.data) :
    parseStateToken (st.value ++ "(" ++ sub ++ ")") = .ok st := by
  have hmatch : parenMatch (st.value ++ "(" ++ sub ++ ")") = some st.value := by
    refine parenMatch_concat st.value sub ?_ hs ?_ hsw ?_ hsp
    · cases st <;> decide
    · cases st <;> decide
    · cases st <;> decide
  unfold parseStateToken parenReduce
  rw [hmatch]
  cases st <;> rfl

/-- Witness for C8 (amended): `review(approved)` parses to `review`. -/
theorem c8_witness :
    parseStateToken ("review" ++ "(" ++ "approved" ++ ")") = .ok RequestState.review :=
  c8_paren_substatus RequestState.review "approved" (by decide) (by decide) (by decide)

/-- Counterexample for C8 as stated: the token `review(a(b)` is of the
form `base(anything)` with base the state `review`, but the greedy match
extracts `review(a` and parsing fails instead of yielding `review`. -/
theorem c8_counterexample :
    "review(a(b)" = "review" ++ "(" ++ "a(b" ++ ")" ∧
    SubmitRequest.from_osc_output c8Block =
      .error (.valueError "review(a is not a valid RequestState") := by
  exact ⟨rfl, by decide⟩

/-! ## Claims about the update workflow -/

theorem runStep_ok (env : UpdateEnv) (c : OscCmd) (t : Trace)
    (h : (env.proc c.render).exit_code = 0) :
    runStep env c t = (.ok (env.proc c.render).stdout, t ++ [c]) := by
  simp [runStep, runCmd, h]

theorem runStep_err (env : UpdateEnv) (c : OscCmd) (t : Trace)
    (h : (env.proc c.render).exit_code ≠ 0) :
    runStep env c t = (.error (.commandError (CommandError.mk (env.proc c.render)
      (cmdFailMsg c.render (env.proc c.render)))), t ++ [c]) := by
  simp [runStep, runCmd, CommandError.init, h]

theorem addLoop_ok (env : UpdateEnv) (cli : String) :
    ∀ (files : List String) (t : Trace),
    (∀ f ∈ files, (env.proc ((OscCmd.add cli f).render)).exit_code = 0) →
    addLoop env cli files t = (.ok (), t ++ files.map (OscCmd.add cli)) := by
  intro files
  induction files with
  | nil => intro t _; simp [addLoop]
  | cons f fs ih =>
    intro t h
    have hf := h f (List.mem_cons_self f fs)
    have hrec := ih (t ++ [OscCmd.add cli f])
      (fun x hx => h x (List.mem_cons_of_mem f hx))
    simp only [addLoop, updBind, runStep_ok env _ t hf, hrec]
    simp

theorem vcciLoop_ok (env : UpdateEnv) (cli msg : String) :
    ∀ (subs : List String) (t : Trace),
    (∀ s ∈ subs, (env.proc ((OscCmd.vcci cli s msg).render)).exit_code = 0) →
    vcciLoop env cli msg subs t =
      (.ok (), t ++ subs.map (fun s => OscCmd.vcci cli s msg)) := by
  intro subs
  induction subs with
  | nil => intro t _; simp [vcciLoop]
  | cons s ss ih =>
    intro t h
    have hs := h s (List.mem_cons_self s ss)
    have hrec := ih (t ++ [OscCmd.vcci cli s msg])
      (fun x hx => h x (List.mem_cons_of_mem s hx))
    simp only [vcciLoop, updBind, runStep_ok env _ t hs, hrec]
    simp

theorem branchPhase_ok (env : UpdateEnv) (cfg : UpdateConfig) (t : Trace)
    (bout co_cmd : String)
    (h1 : (env.proc ((OscCmd.branch cfg.osc_cli cfg.source_package.project
      cfg.source_package.package cfg.target_project).render)).exit_code = 0)
    (h2 : (env.proc ((OscCmd.branch cfg.osc_cli cfg.source_package.project
      cfg.source_package.package cfg.target_project).render)).stdout = bout)
    (h3 : (pySplitStr bout "\n")[2]? = some co_cmd) :
    branchPhase env cfg t =
      (.ok ((pySplitStr co_cmd " ").getLastD ""),
        t ++ [OscCmd.branch cfg.osc_cli cfg.source_package.project
          cfg.source_package.package cfg.target_project]) := by
  simp only [branchPhase, updBind, runStep_ok env _ t h1, h2, h3]

theorem updBind_runStep_ok {β : Type} (env : UpdateEnv) (c : OscCmd)
    (h : (env.proc c.render).exit_code = 0)
    (f : String → Trace → Except PyExc β × Trace) (t : Trace) :
    updBind (runStep env c) f t = f (env.proc c.render).stdout (t ++ [c]) := by
  simp [updBind, runStep_ok env c t h]

theorem updBind_runStep_err {β : Type} (env : UpdateEnv) (c : OscCmd)
    (h : (env.proc c.render).exit_code ≠ 0)
    (f : String → Trace → Except PyExc β × Trace) (t : Trace) :
    updBind (runStep env c) f t =
      (.error (.commandError (CommandError.mk (env.proc c.render)
        (cmdFailMsg c.render (env.proc c.render)))), t ++ [c]) := by
  simp [updBind, runStep_err env c t h]

theorem updBind_addFiles {β : Type} (env : UpdateEnv) (files : List String)
    (h : env.addFiles = .ok files)
    (f : List String → Trace → Except PyExc β × Trace) (t : Trace) :
    updBind (fun t2 => (env.addFiles, t2)) f t = f files t := by
  simp [updBind, h]

theorem updBind_addLoop_ok {β : Type} (env : UpdateEnv) (cli : String)
    (files : List String)
    (h : ∀ f ∈ files, (env.proc ((OscCmd.add cli f).render)).exit_code = 0)
    (f : Unit → Trace → Except PyExc β × Trace) (t : Trace) :
    updBind (addLoop env cli files) f t =
      f () (t ++ files.map (OscCmd.add cli)) := by
  simp [updBind, addLoop_ok env cli files t h]

theorem updBind_vcciLoop_ok {β : Type} (env : UpdateEnv) (cli msg : String)
    (subs : List String)
    (h : ∀ s ∈ subs, (env.proc ((OscCmd.vcci cli s msg).render)).exit_code = 0)
    (f : Unit → Trace → Except PyExc β × Trace) (t : Trace) :
    updBind (vcciLoop env cli msg subs) f t =
      f () (t ++ subs.map (fun s => OscCmd.vcci cli s msg)) := by
  simp [updBind, vcciLoop_ok env cli msg subs t h]

theorem stepsAfterBranch_no_change (env : UpdateEnv) (cfg : UpdateConfig)
    (tp : String) (t : Trace) (files : List String)
    (hchk : (env.proc ((OscCmd.checkout cfg.osc_cli tp cfg.tmp).render)).exit_code = 0)
    (hadd : env.addFiles = .ok files)
    (hfs : ∀ f ∈ files, (env.proc ((OscCmd.add cfg.osc_cli f).render)).exit_code = 0)
    (hst0 : (env.proc ((OscCmd.status cfg.osc_cli).render)).exit_code = 0)
    (hst : (env.proc ((OscCmd.status cfg.osc_cli).render)).stdout = "")
    (hrd : cfg.cleanup_on_no_change = true →
      (env.proc ((OscCmd.rdeleteNoChange cfg.osc_cli tp).render)).exit_code = 0) :
    stepsAfterBranch env cfg tp t =
      (.ok (), t ++ OscCmd.checkout cfg.osc_cli tp cfg.tmp ::
        (files.map (OscCmd.add cfg.osc_cli) ++ [OscCmd.status cfg.osc_cli] ++
          (if cfg.cleanup_on_no_change then
            [OscCmd.rdeleteNoChange cfg.osc_cli tp] else []))) := by
  simp only [stepsAfterBranch,
    updBind_runStep_ok env (OscCmd.checkout cfg.osc_cli tp cfg.tmp) hchk,
    updBind_addFiles env files hadd,
    updBind_addLoop_ok env cfg.osc_cli files hfs,
    updBind_runStep_ok env (OscCmd.status cfg.osc_cli) hst0,
    hst, ite_true]
  cases hc : cfg.cleanup_on_no_change with
  | false => simp
  | true =>
    simp only [ite_true,
      updBind_runStep_ok env (OscCmd.rdeleteNoChange cfg.osc_cli tp) (hrd hc)]
    simp

theorem updBind_of_eq_ok {α β : Type} (x : Trace → Except PyExc α × Trace)
    (f : α → Trace → Except PyExc β × Trace) (t t2 : Trace) (a : α)
    (hx : x t = (.ok a, t2)) : updBind x f t = f a t2 := by
  simp [updBind, hx]

/-- Unfolding of `updatePackage` once the branch phase has produced the
branched package name. -/
theorem updatePackage_eq (env : UpdateEnv) (cfg : UpdateConfig)
    (tp : String) (t2 : Trace)
    (hbr : branchPhase env cfg [] = (.ok tp, t2)) :
    updatePackage env cfg =
      match stepsAfterBranch env cfg tp t2 with
      | (.ok _, t3) => (.ok (), t3)
      | (.error e, t3) =>
        if cfg.cleanup_on_error ∧ tp ≠ "" then
          match runStep env (OscCmd.rdeleteOnError cfg.osc_cli tp) t3 with
          | (.ok _, t4) => (.error e, t4)
          | (.error e2, t4) => (.error e2, t4)
        else (.error e, t3) := by
  unfold updatePackage
  rw [updBind_of_eq_ok _ _ _ _ _ hbr]

/-- Claim C4: under an empty working-copy status after staging, the
workflow issues no changelog (`vc`), commit (`ci`) or submit (`sr`)
command and returns successfully; a remote removal of the branched
package is issued exactly when `cleanup_on_no_change` is true, and when
it is false the unchanged branch is left in place (no removal in the
trace). -/
theorem c4_no_change (env : UpdateEnv) (cfg : UpdateConfig)
    (bout co_cmd tp : String) (files : List String)
    (h1 : (env.proc ((OscCmd.branch cfg.osc_cli cfg.source_package.project
      cfg.source_package.package cfg.target_project).render)).exit_code = 0)
    (h2 : (env.proc ((OscCmd.branch cfg.osc_cli cfg.source_package.project
      cfg.source_package.package cfg.target_project).render)).stdout = bout)
    (h3 : (pySplitStr bout "\n")[2]? = some co_cmd)
    (htp : (pySplitStr co_cmd " ").getLastD "" = tp)
    (hchk : (env.proc ((OscCmd.checkout cfg.osc_cli tp cfg.tmp).render)).exit_code = 0)
    (hadd : env.addFiles = .ok files)
    (hfs : ∀ f ∈ files, (env.proc ((OscCmd.add cfg.osc_cli f).render)).exit_code = 0)
    (hst0 : (env.proc ((OscCmd.status cfg.osc_cli).render)).exit_code = 0)
    (hst : (env.proc ((OscCmd.status cfg.osc_cli).render)).stdout = "")
    (hrd : cfg.cleanup_on_no_change = true →
      (env.proc ((OscCmd.rdeleteNoChange cfg.osc_cli tp).render)).exit_code = 0) :
    updatePackage env cfg =
      (.ok (), OscCmd.branch cfg.osc_cli cfg.source_package.project
          cfg.source_package.package cfg.target_project ::
        OscCmd.checkout cfg.osc_cli tp cfg.tmp ::
        (files.map (OscCmd.add cfg.osc_cli) ++ [OscCmd.status cfg.osc_cli] ++
          (if cfg.cleanup_on_no_change then
            [OscCmd.rdeleteNoChange cfg.osc_cli tp] else [])))
    ∧ (updatePackage env cfg).2.countP (fun c => c.isVcCiSr) = 0
    ∧ countRdelete (updatePackage env cfg).2 =
        (if cfg.cleanup_on_no_change then 1 else 0) := by
  have hbr := branchPhase_ok env cfg [] bout co_cmd h1 h2 h3
  rw [htp] at hbr
  rw [List.nil_append] at hbr
  have hsteps := stepsAfterBranch_no_change env cfg tp
    [OscCmd.branch cfg.osc_cli cfg.source_package.project
      cfg.source_package.package cfg.target_project]
    files hchk hadd hfs hst0 hst hrd
  have hmain : updatePackage env cfg =
      (.ok (), OscCmd.branch cfg.osc_cli cfg.source_package.project
          cfg.source_package.package cfg.target_project ::
        OscCmd.checkout cfg.osc_cli tp cfg.tmp ::
        (files.map (OscCmd.add cfg.osc_cli) ++ [OscCmd.status cfg.osc_cli] ++
          (if cfg.cleanup_on_no_change then
            [OscCmd.rdeleteNoChange cfg.osc_cli tp] else []))) := by
    rw [updatePackage_eq env cfg tp _ hbr, hsteps]
    simp
  refine ⟨hmain, ?_, ?_⟩
  · rw [hmain]
    cases cfg.cleanup_on_no_change <;>
      simp [OscCmd.isVcCiSr, List.countP_cons, List.countP_append,
        List.countP_map, Function.comp]
  · rw [hmain]
    cases cfg.cleanup_on_no_change <;>
      simp [countRdelete, OscCmd.isRdelete, List.countP_cons,
        List.countP_append, List.countP_map, Function.comp]

/-- Claim C1 (amended): for a failure raised during steps 2-7 when
`cleanup_on_error` is true, the branch step completed with a truthy
branched-package name, and the failing portion issued no removal command
of its own (which excludes only a failure of the no-change removal
itself), exactly one remote removal command is issued for the branched
package, and — the removal command succeeding — the original failure is
re-raised to the caller unchanged. -/
theorem c1_cleanup_on_error (env : UpdateEnv) (cfg : UpdateConfig)
    (bout co_cmd tp : String) (e : PyExc) (dt : Trace)
    (h1 : (env.proc ((OscCmd.branch cfg.osc_cli cfg.source_package.project
      cfg.source_package.package cfg.target_project).render)).exit_code = 0)
    (h2 : (env.proc ((OscCmd.branch cfg.osc_cli cfg.source_package.project
      cfg.source_package.package cfg.target_project).render)).stdout = bout)
    (h3 : (pySplitStr bout "\n")[2]? = some co_cmd)
    (htp : (pySplitStr co_cmd " ").getLastD "" = tp)
    (htpne : tp ≠ "")
    (hsteps : stepsAfterBranch env cfg tp
      [OscCmd.branch cfg.osc_cli cfg.source_package.project
        cfg.source_package.package cfg.target_project] =
      (.error e, OscCmd.branch cfg.osc_cli cfg.source_package.project
        cfg.source_package.package cfg.target_project :: dt))
    (hnord : ∀ c ∈ dt, c.isRdelete = false)
    (hcl : cfg.cleanup_on_error = true)
    (hrdel : (env.proc ((OscCmd.rdeleteOnError cfg.osc_cli tp).render)).exit_code = 0) :
    updatePackage env cfg =
      (.error e, (OscCmd.branch cfg.osc_cli cfg.source_package.project
          cfg.source_package.package cfg.target_project :: dt) ++
        [OscCmd.rdeleteOnError cfg.osc_cli tp])
    ∧ countRdelete (updatePackage env cfg).2 = 1 := by
  have hbr := branchPhase_ok env cfg [] bout co_cmd h1 h2 h3
  rw [htp] at hbr
  rw [List.nil_append] at hbr
  have hmain : updatePackage env cfg =
      (.error e, (OscCmd.branch cfg.osc_cli cfg.source_package.project
          cfg.source_package.package cfg.target_project :: dt) ++
        [OscCmd.rdeleteOnError cfg.osc_cli tp]) := by
    rw [updatePackage_eq env cfg tp _ hbr, hsteps]
    simp only [hcl, htpne, ne_eq, not_false_iff, and_self, ite_true,
      runStep_ok env (OscCmd.rdeleteOnError cfg.osc_cli tp)
        (OscCmd.branch cfg.osc_cli cfg.source_package.project
          cfg.source_package.package cfg.target_project :: dt) hrdel]
  refine ⟨hmain, ?_⟩
  rw [hmain]
  have hdt : dt.countP (fun c => c.isRdelete) = 0 :=
    List.countP_eq_zero.mpr (fun c hc => by simp [hnord c hc])
  simp [countRdelete, List.countP_append, List.countP_cons,
    OscCmd.isRdelete, hdt]
  intro a ha
  exact hnord a ha

/-- Witness for C1 (amended): injecting a failure at the await-services
step with `cleanup_on_error=True` issues exactly one removal command for
the branched package and re-raises the original failure. -/
theorem c1_witness :
    updatePackage envSwFail cfgW =
      (.error (.commandError (CommandError.mk (CommandResult.mk 1 "" "swfail")
        (cmdFailMsg "osc service wait home:u p" (CommandResult.mk 1 "" "swfail")))),
       [OscCmd.branch "osc" "P" "p" none,
        OscCmd.checkout "osc" "home:u/p" "/tmp/x",
        OscCmd.status "osc",
        OscCmd.vcci "osc" "vc" "m",
        OscCmd.vcci "osc" "ci" "m",
        OscCmd.serviceWait "osc" "home:u/p",
        OscCmd.rdeleteOnError "osc" "home:u/p"])
    ∧ countRdelete (updatePackage envSwFail cfgW).2 = 1 := by
  have h := c1_cleanup_on_error envSwFail cfgW brOutW "osc co home:u/p" "home:u/p"
    (.commandError (CommandError.mk (CommandResult.mk 1 "" "swfail")
      (cmdFailMsg "osc service wait home:u p" (CommandResult.mk 1 "" "swfail"))))
    [OscCmd.checkout "osc" "home:u/p" "/tmp/x", OscCmd.status "osc",
     OscCmd.vcci "osc" "vc" "m", OscCmd.vcci "osc" "ci" "m",
     OscCmd.serviceWait "osc" "home:u/p"]
    (by decide) (by decide) (by decide) (by decide) (by decide)
    (by decide) (by decide) (by decide) (by decide)
  exact ⟨h.1, h.2⟩

/-- Counterexample for C1 as stated. First scenario: the single injected
failure is the no-change removal command itself failing (a failure during
step 4, change detection); the branch completed and `cleanup_on_error`
is true, yet two removal commands are issued, not one. Second scenario:
the await-services step fails and the on-error removal command also
fails; the removal's own failure propagates, so the original failure is
not re-raised to the caller. -/
theorem c1_counterexample :
    (countRdelete (updatePackage envRdncFail cfgW).2 = 2 ∧
      (updatePackage envRdncFail cfgW).1 = .error (.commandError
        (CommandError.mk (CommandResult.mk 1 "" "rdncfail")
          (cmdFailMsg "osc rdelete home:u/p -m \x27cleanup as nothing changed\x27"
            (CommandResult.mk 1 "" "rdncfail"))))) ∧
    ((updatePackage envSwRdFail cfgW).1 = .error (.commandError
        (CommandError.mk (CommandResult.mk 1 "" "rdfail")
          (cmdFailMsg "osc rdelete home:u/p -m \x27cleanup on error\x27"
            (CommandResult.mk 1 "" "rdfail")))) ∧
      (updatePackage envSwRdFail cfgW).1 ≠ .error (.commandError
        (CommandError.mk (CommandResult.mk 1 "" "swfail")
          (cmdFailMsg "osc service wait home:u p"
            (CommandResult.mk 1 "" "swfail"))))) := by
  exact ⟨⟨by decide, by decide⟩, by decide, by decide⟩

/-- Witness for C4: two written files that produce no working-copy
change lead to branch, checkout, two adds, status, and one no-change
removal — no vc, ci or sr — and a successful return. -/
theorem c4_witness :
    updatePackage envNoChange cfgW =
      (.ok (), [OscCmd.branch "osc" "P" "p" none,
        OscCmd.checkout "osc" "home:u/p" "/tmp/x",
        OscCmd.add "osc" "f1", OscCmd.add "osc" "f2",
        OscCmd.status "osc", OscCmd.rdeleteNoChange "osc" "home:u/p"])
    ∧ (updatePackage envNoChange cfgW).2.countP (fun c => c.isVcCiSr) = 0
    ∧ countRdelete (updatePackage envNoChange cfgW).2 = 1 := by
  have h := c4_no_change envNoChange cfgW brOutW "osc co home:u/p" "home:u/p"
    ["f1", "f2"] (by decide) (by decide) (by decide) (by decide) (by decide)
    (by decide) (by decide) (by decide) (by decide) (by decide)
  exact ⟨h.1, h.2.1, h.2.2⟩
